import Mathlib

/-!
Shallow embedding of the instrumentation layer of the `aws-lambda-radar`
repository (TypeScript): the structured logger (`src/logging.ts`), the
invocation-info extractor (`src/info.ts`), the execution timer
(`src/performance.ts`), the middleware layer (`src/middleware.ts`) and the
method decorators (`src/decorators.ts`).

Effects are made explicit: process-wide mutable state (the cold-start flag,
environment variables, the console output) is threaded as a `ProcState`
value, and JavaScript exceptions are `Except JSError` results.  JSON data
payloads are modelled by the inductive `JSData`; a payload containing a
reference cycle is `JSData.circular`, on which `JSON.stringify` throws.
-/

set_option autoImplicit false

namespace Radar

/-- A JavaScript `Error` value: `name`, `message` and `stack`.  `new Error(m)`
is modelled with `name := "Error"` and an empty stack (stack capture is a
platform effect outside the model). -/
structure JSError where
  name : String
  message : String
  stack : String
deriving DecidableEq, Repr

/-- Model of `new Error(message)`. -/
def newError (message : String) : JSError :=
  { name := "Error", message := message, stack := "" }

instance {ε α : Type} [DecidableEq ε] [DecidableEq α] : DecidableEq (Except ε α) :=
  fun a b =>
    match a, b with
    | Except.ok x, Except.ok y =>
      match decEq x y with
      | isTrue h => isTrue (by rw [h])
      | isFalse h => isFalse (by intro hc; cases hc; exact h rfl)
    | Except.error x, Except.error y =>
      match decEq x y with
      | isTrue h => isTrue (by rw [h])
      | isFalse h => isFalse (by intro hc; cases hc; exact h rfl)
    | Except.ok _, Except.error _ => isFalse (by intro h; cases h)
    | Except.error _, Except.ok _ => isFalse (by intro h; cases h)

mutual
/-- A JSON-like JavaScript value as it matters to the logger: primitives,
objects, and `circular`, a value containing a reference cycle (on which
`JSON.stringify` throws a `TypeError`). -/
inductive JSData where
  | undef : JSData
  | boolv : Bool → JSData
  | num : ℚ → JSData
  | str : String → JSData
  | circular : JSData
  | obj : JSFields → JSData

/-- The fields of a JavaScript object literal, in insertion order. -/
inductive JSFields where
  | nil : JSFields
  | cons : String → JSData → JSFields → JSFields
end

mutual
def decEqJSData : (a b : JSData) → Decidable (a = b)
  | .undef, .undef => isTrue rfl
  | .boolv a, .boolv b =>
    match decEq a b with
    | isTrue h => isTrue (by rw [h])
    | isFalse h => isFalse (by intro hc; cases hc; exact h rfl)
  | .num a, .num b =>
    match decEq a b with
    | isTrue h => isTrue (by rw [h])
    | isFalse h => isFalse (by intro hc; cases hc; exact h rfl)
  | .str a, .str b =>
    match decEq a b with
    | isTrue h => isTrue (by rw [h])
    | isFalse h => isFalse (by intro hc; cases hc; exact h rfl)
  | .circular, .circular => isTrue rfl
  | .obj a, .obj b =>
    match decEqJSFields a b with
    | isTrue h => isTrue (by rw [h])
    | isFalse h => isFalse (by intro hc; cases hc; exact h rfl)
  | .undef, .boolv _ => isFalse (by intro h; cases h)
  | .undef, .num _ => isFalse (by intro h; cases h)
  | .undef, .str _ => isFalse (by intro h; cases h)
  | .undef, .circular => isFalse (by intro h; cases h)
  | .undef, .obj _ => isFalse (by intro h; cases h)
  | .boolv _, .undef => isFalse (by intro h; cases h)
  | .boolv _, .num _ => isFalse (by intro h; cases h)
  | .boolv _, .str _ => isFalse (by intro h; cases h)
  | .boolv _, .circular => isFalse (by intro h; cases h)
  | .boolv _, .obj _ => isFalse (by intro h; cases h)
  | .num _, .undef => isFalse (by intro h; cases h)
  | .num _, .boolv _ => isFalse (by intro h; cases h)
  | .num _, .str _ => isFalse (by intro h; cases h)
  | .num _, .circular => isFalse (by intro h; cases h)
  | .num _, .obj _ => isFalse (by intro h; cases h)
  | .str _, .undef => isFalse (by intro h; cases h)
  | .str _, .boolv _ => isFalse (by intro h; cases h)
  | .str _, .num _ => isFalse (by intro h; cases h)
  | .str _, .circular => isFalse (by intro h; cases h)
  | .str _, .obj _ => isFalse (by intro h; cases h)
  | .circular, .undef => isFalse (by intro h; cases h)
  | .circular, .boolv _ => isFalse (by intro h; cases h)
  | .circular, .num _ => isFalse (by intro h; cases h)
  | .circular, .str _ => isFalse (by intro h; cases h)
  | .circular, .obj _ => isFalse (by intro h; cases h)
  | .obj _, .undef => isFalse (by intro h; cases h)
  | .obj _, .boolv _ => isFalse (by intro h; cases h)
  | .obj _, .num _ => isFalse (by intro h; cases h)
  | .obj _, .str _ => isFalse (by intro h; cases h)
  | .obj _, .circular => isFalse (by intro h; cases h)

def decEqJSFields : (a b : JSFields) → Decidable (a = b)
  | .nil, .nil => isTrue rfl
  | .cons k v r, .cons k' v' r' =>
    match decEq k k', decEqJSData v v', decEqJSFields r r' with
    | isTrue h1, isTrue h2, isTrue h3 => isTrue (by rw [h1, h2, h3])
    | isFalse h1, _, _ => isFalse (by intro hc; cases hc; exact h1 rfl)
    | _, isFalse h2, _ => isFalse (by intro hc; cases hc; exact h2 rfl)
    | _, _, isFalse h3 => isFalse (by intro hc; cases hc; exact h3 rfl)
  | .nil, .cons _ _ _ => isFalse (by intro h; cases h)
  | .cons _ _ _, .nil => isFalse (by intro h; cases h)
end

instance : DecidableEq JSData := decEqJSData
instance : DecidableEq JSFields := decEqJSFields

/-- JavaScript truthiness of a `JSData` value (`undefined`, `false`, `0` and
`""` are falsy; every object is truthy). -/
def jsTruthy : JSData → Bool
  | .undef => false
  | .boolv b => b
  | .num q => decide (q ≠ 0)
  | .str s => decide (s ≠ "")
  | .circular => true
  | .obj _ => true

/-- Canonical rendering of a rational in a decimal-like way; stands in for
the JavaScript number-to-string conversion (an external platform detail the
claims never inspect). -/
def ratToStr (q : ℚ) : String := toString q

mutual
/-- Model of `JSON.stringify` on a `JSData` value: `none` models the `TypeError`
thrown on a circular structure.  The exact layout of the rendered text is a
platform detail; object fields holding `undefined` are dropped, as
`JSON.stringify` does. -/
def jsonStringify : JSData → Option String
  | .undef => none
  | .boolv b => some (if b then "true" else "false")
  | .num q => some (ratToStr q)
  | .str s => some ("\"" ++ s ++ "\"")
  | .circular => none
  | .obj fs =>
    match jsonStringifyFields fs with
    | none => none
    | some parts => some ("\x7b" ++ String.intercalate "," parts ++ "\x7d")

def jsonStringifyFields : JSFields → Option (List String)
  | .nil => some []
  | .cons k v rest =>
    match v with
    | .undef => jsonStringifyFields rest
    | .boolv b =>
      match jsonStringifyFields rest with
      | none => none
      | some parts => some (("\"" ++ k ++ "\":" ++ (if b then "true" else "false")) :: parts)
    | .num q =>
      match jsonStringifyFields rest with
      | none => none
      | some parts => some (("\"" ++ k ++ "\":" ++ ratToStr q) :: parts)
    | .str s =>
      match jsonStringifyFields rest with
      | none => none
      | some parts => some (("\"" ++ k ++ "\":\"" ++ s ++ "\"") :: parts)
    | .circular => none
    | .obj fs =>
      match jsonStringify (JSData.obj fs), jsonStringifyFields rest with
      | some sv, some parts => some (("\"" ++ k ++ "\":" ++ sv) :: parts)
      | _, _ => none
end

/-- A `JSData` value can be rendered by `JSON.stringify` without throwing. -/
def jsonRenderable (d : JSData) : Bool := (jsonStringify d).isSome

/-- Look up a field of a `JSData` object (first match, insertion order). -/
def dataLookup : JSData → String → Option JSData
  | .obj fs, key => fieldsLookup fs key
  | _, _ => none
where
  fieldsLookup : JSFields → String → Option JSData
  | .nil, _ => none
  | .cons k v rest, key => if k = key then some v else fieldsLookup rest key

/-- The `TypeError` thrown by `JSON.stringify` on a circular structure. -/
def circularJsonError : JSError :=
  { name := "TypeError", message := "Converting circular structure to JSON", stack := "" }

/-- JavaScript `x || d` for an optional string `x` (empty string is falsy). -/
def jsOrDefault (o : Option String) (d : String) : String :=
  match o with
  | some s => if s = "" then d else s
  | none => d

/-- Truthiness of an optional string, as in `if (lambdaInfo.alias)`. -/
def optStrTruthy (o : Option String) : Bool :=
  match o with
  | some s => decide (s ≠ "")
  | none => false

/-- How a possibly-undefined string renders inside a template literal. -/
def jsDisplay (o : Option String) : String :=
  match o with
  | some s => s
  | none => "undefined"

/-! ## Log options (`src/types.ts`, `LogOptions`) -/

/-- Model of `LogOptions` from `src/types.ts`: all four fields optional; a `none`
field models an absent property. -/
structure LogOptions where
  verbose : Option Bool := none
  includeLambdaInfo : Option Bool := none
  includeTimestamp : Option Bool := none
  includeData : Option Bool := none
deriving DecidableEq, Repr

/-- Model of `Required<LogOptions>`: the construction-time options of a logger after
the defaults were merged. -/
structure ResolvedLogOptions where
  verbose : Bool
  includeLambdaInfo : Bool
  includeTimestamp : Bool
  includeData : Bool
deriving DecidableEq, Repr

/-- The construction-time merge in `createContextLogger`
(`src/logging.ts` lines 13-19): built-in defaults overridden per present
field by `defaultOptions` (object spread). -/
def resolveConstructionOptions (defaultOptions : LogOptions) : ResolvedLogOptions :=
  { verbose := defaultOptions.verbose.getD false
    includeLambdaInfo := defaultOptions.includeLambdaInfo.getD true
    includeTimestamp := defaultOptions.includeTimestamp.getD true
    includeData := defaultOptions.includeData.getD true }

/-- The per-call merge `{...options, ...callOptions}` in each log method
(`src/logging.ts` lines 60, 64, 68, 72): a field present in `callOptions`
wins, an absent one falls back to the construction-time value; an absent
`callOptions` argument leaves the construction-time options unchanged. -/
def mergeCallOptions (options : ResolvedLogOptions) (callOptions : Option LogOptions) :
    ResolvedLogOptions :=
  match callOptions with
  | none => options
  | some co =>
    { verbose := co.verbose.getD options.verbose
      includeLambdaInfo := co.includeLambdaInfo.getD options.includeLambdaInfo
      includeTimestamp := co.includeTimestamp.getD options.includeTimestamp
      includeData := co.includeData.getD options.includeData }

/-! ### Kernel-computable string primitives

The few string operations the source uses (`split(":")`, `trim`, digit
tests, `parseInt`) are implemented over the character list so that concrete
witnesses evaluate inside the kernel. -/

/-- Split a character list on a separator character (JS `s.split(sep)`):
always at least one group, empty groups preserved. -/
def splitCharList (sep : Char) : List Char → List (List Char)
  | [] => [[]]
  | c :: rest =>
    match splitCharList sep rest with
    | [] => [[c]]
    | g :: gs => if c = sep then [] :: g :: gs else (c :: g) :: gs

/-- JS `s.split(":")` as strings. -/
def splitOnChar (sep : Char) (s : String) : List String :=
  (splitCharList sep s.data).map (fun cs => String.mk cs)

/-- JS `s.trim()`: strip leading and trailing whitespace. -/
def jsTrim (s : String) : String :=
  String.mk (((s.data.dropWhile Char.isWhitespace).reverse.dropWhile Char.isWhitespace).reverse)

/-- Value of a decimal-digit character list. -/
def digitsToNat (cs : List Char) : Nat :=
  cs.foldl (fun n c => n * 10 + (c.toNat - 48)) 0

/-! ## Invocation context and process-wide state -/

/-- The host-provided Lambda `Context` object.  `functionName` is `Option`
so that an object whose `functionName` is not a string (checked by the
decorators with `typeof context.functionName !== "string"`) is
representable; a genuine context carries `some name`. -/
structure Context where
  functionName : Option String
  functionVersion : String
  memoryLimitInMB : String
  awsRequestId : String
  logGroupName : String
  logStreamName : String
  invokedFunctionArn : String
  remainingTimeMs : Nat
deriving DecidableEq, Repr

/-- One console record: the sink (`info`/`warn`/`error`/`debug`), the
arguments the log method was called with, and the parts of the formatted
line (the emitted line is the parts joined with `" | "`). -/
structure LogRecord where
  sink : String
  message : String
  data : JSData
  error : Option JSError
  parts : List String
deriving DecidableEq

/-- Process-wide mutable state threaded through the model: the cold-start
flag of `src/info.ts`, the environment variables the code reads or writes,
the reported resident-set size, the monotonic clock, and the console
output. -/
structure ProcState where
  isFirstInvocation : Bool
  logStreamEnv : Option String
  nodeEnv : Option String
  awsExecutionEnv : Option String
  awsRegion : Option String
  rssBytes : Nat
  now : Nat × Nat
  output : List LogRecord
deriving DecidableEq

/-! ## Info extractor (`src/info.ts`) -/

/-- Model of `isNaN(Number(s))`.  `Number("")` (after trimming) is `0`, hence not
`NaN`; a trimmed all-digit string parses as a number; the model treats any
other string as `NaN`, which covers the version/alias ARN segments the
source applies it to. -/
def jsNumberIsNaN (s : String) : Bool :=
  let t := (jsTrim s).data
  if t = [] then false else !(t.all Char.isDigit)

/-- Model of `parseInt(s)`: the leading decimal-digit run after trimming, `none` when
there is none (`NaN`). -/
def jsParseInt (s : String) : Option Int :=
  let digits := (jsTrim s).data.takeWhile Char.isDigit
  if digits = [] then none else some ((digitsToNat digits : Nat) : Int)

/-- Model of `Math.round`: nearest integer, ties toward positive infinity. -/
def mathRound (q : ℚ) : Int := ⌊q + 1 / 2⌋

/-- Model of `MinimalLambdaInfo` from `src/types.ts`. -/
structure MinimalLambdaInfo where
  functionName : Option String
  functionVersion : String
  awsRequestId : String
  aliasName : Option String
  coldStart : Bool
deriving DecidableEq, Repr

/-- Model of `LambdaInfo` from `src/types.ts` (the full projection). -/
structure LambdaInfo where
  functionName : Option String
  functionVersion : String
  memoryLimitInMB : Option Int
  memoryUsageInMB : ℚ
  executionEnvironment : Option String
  logGroupName : String
  logStreamName : String
  awsRequestId : String
  coldStart : Bool
  remainingTime : Nat
  region : String
  aliasName : Option String
deriving DecidableEq, Repr

/-- The shared projection of a full `LambdaInfo` onto the minimal shape. -/
def LambdaInfo.toMinimalInfo (i : LambdaInfo) : MinimalLambdaInfo :=
  { functionName := i.functionName
    functionVersion := i.functionVersion
    awsRequestId := i.awsRequestId
    aliasName := i.aliasName
    coldStart := i.coldStart }

/-- Model of `getAliasFromContext` (`src/info.ts`): the last colon-separated ARN
segment, when nonempty and not numeric. -/
def getAliasFromContext (context : Context) : Option String :=
  let arnParts := splitOnChar ':' context.invokedFunctionArn
  let lastPart := (arnParts.getLast?).getD ""
  if lastPart ≠ "" ∧ jsNumberIsNaN lastPart then some lastPart else none

/-- Model of `getLambdaInfo` (`src/info.ts`): reads and clears the process-wide
cold-start flag, then assembles the full info record. -/
def getLambdaInfo (context : Context) (s : ProcState) : LambdaInfo × ProcState :=
  let coldStart := s.isFirstInvocation
  let s' := { s with isFirstInvocation := false }
  let memoryUsageInMB : ℚ := (mathRound ((s.rssBytes : ℚ) / 1024 / 1024 * 100) : ℚ) / 100
  ({ functionName := context.functionName
     functionVersion := context.functionVersion
     memoryLimitInMB := jsParseInt context.memoryLimitInMB
     memoryUsageInMB := memoryUsageInMB
     executionEnvironment := s.awsExecutionEnv
     logGroupName := context.logGroupName
     logStreamName := context.logStreamName
     awsRequestId := context.awsRequestId
     coldStart := coldStart
     remainingTime := context.remainingTimeMs
     region := jsOrDefault s.awsRegion "unknown"
     aliasName := getAliasFromContext context }, s')

/-- Model of `getMinimalLambdaInfo` (`src/info.ts`): reads and clears the
process-wide cold-start flag, then assembles the minimal info record. -/
def getMinimalLambdaInfo (context : Context) (s : ProcState) : MinimalLambdaInfo × ProcState :=
  let coldStart := s.isFirstInvocation
  let s' := { s with isFirstInvocation := false }
  ({ functionName := context.functionName
     functionVersion := context.functionVersion
     awsRequestId := context.awsRequestId
     aliasName := getAliasFromContext context
     coldStart := coldStart }, s')

/-! ## Structured logger (`src/logging.ts`) -/

/-- The closure state of a logger returned by `createContextLogger`: the
construction-time resolved options and the invocation metadata captured at
construction (the common projection consulted by `formatLog`). -/
structure ContextLogger where
  options : ResolvedLogOptions
  info : MinimalLambdaInfo
deriving DecidableEq, Repr

/-- The metadata segment pushed by `formatLog` (`src/logging.ts` lines
35-45), in its alias and no-alias variants. -/
def metaSegment (i : MinimalLambdaInfo) : String :=
  let fn := jsDisplay i.functionName
  let cs := if i.coldStart then "true" else "false"
  if optStrTruthy i.aliasName then
    "Function: " ++ fn ++ ", Alias: " ++ (i.aliasName.getD "") ++ ", Version: " ++
      i.functionVersion ++ ", RequestID: " ++ i.awsRequestId ++ ", ColdStart: " ++ cs
  else
    "Function: " ++ fn ++ ", Version: " ++ i.functionVersion ++ ", RequestID: " ++
      i.awsRequestId ++ ", ColdStart: " ++ cs

/-- The error segment pushed by `formatLog` (`src/logging.ts` line 52). -/
def errorSegment (e : JSError) : String :=
  "Error: " ++ e.name ++ " - " ++ e.message ++ "\nStack: " ++ e.stack

/-- Model of `formatLog` (`src/logging.ts` lines 32-56).  Note it consults the
construction-time `options` captured in the logger closure — not the merged
per-call options — for both the metadata and the data segment, and that
`JSON.stringify` is called without any containment, so a circular payload
makes the whole call throw. -/
def formatLog (logger : ContextLogger) (_level : String) (message : String)
    (data : JSData) (error : Option JSError) : Except JSError (List String) :=
  let p1 := [message]
  let p2 := if logger.options.includeLambdaInfo then p1 ++ [metaSegment logger.info] else p1
  let dataPart : Except JSError (List String) :=
    if jsTruthy data && logger.options.includeData then
      match jsonStringify data with
      | none => Except.error circularJsonError
      | some j => Except.ok ["Data: " ++ j]
    else Except.ok []
  match dataPart with
  | Except.error e => Except.error e
  | Except.ok dp =>
    let p3 := p2 ++ dp
    let p4 := match error with
      | some e => p3 ++ [errorSegment e]
      | none => p3
    Except.ok p4

/-- Model of `createContextLogger` (`src/logging.ts` lines 11-76): resolves the
construction options, captures the invocation metadata (full when `verbose`,
else minimal — either read clears the cold-start flag), and overwrites the
process-wide `AWS_LAMBDA_LOG_STREAM_NAME` with the alias-tagged stream
name. -/
def createContextLogger (context : Context) (defaultOptions : LogOptions)
    (s : ProcState) : ContextLogger × ProcState :=
  let options := resolveConstructionOptions defaultOptions
  let (info, s1) :=
    if options.verbose then
      let (fi, s') := getLambdaInfo context s
      (fi.toMinimalInfo, s')
    else getMinimalLambdaInfo context s
  let logStreamName :=
    if optStrTruthy info.aliasName then
      "[" ++ info.aliasName.getD "" ++ "]-" ++ context.logStreamName
    else context.logStreamName
  ({ options := options, info := info }, { s1 with logStreamEnv := some logStreamName })

/-- One call of a logger method (`src/logging.ts` lines 59-74): merge the
call-time options over the construction-time ones, gate the data payload on
the merged `includeData`, and format the line.  The result is the console
record to emit, or the thrown error when formatting throws. -/
def logCall (logger : ContextLogger) (sink : String) (message : String) (data : JSData)
    (error : Option JSError) (callOptions : Option LogOptions) : Except JSError LogRecord :=
  let opts := mergeCallOptions logger.options callOptions
  let gated := if opts.includeData then data else JSData.undef
  match formatLog logger sink message gated error with
  | Except.error e => Except.error e
  | Except.ok parts =>
    Except.ok { sink := sink, message := message, data := data, error := error, parts := parts }

/-- Push a console record onto the process output. -/
def pushLog (s : ProcState) (r : LogRecord) : ProcState :=
  { s with output := s.output ++ [r] }

/-- Model of `logger.info` (`src/logging.ts` lines 59-62), with the console write
made explicit on the process state. -/
def loggerInfo (logger : ContextLogger) (message : String) (data : JSData)
    (callOptions : Option LogOptions) (s : ProcState) : ProcState × Except JSError Unit :=
  match logCall logger "info" message data none callOptions with
  | Except.error e => (s, Except.error e)
  | Except.ok r => (pushLog s r, Except.ok ())

/-- Model of `logger.warn` (`src/logging.ts` lines 63-66). -/
def loggerWarn (logger : ContextLogger) (message : String) (data : JSData)
    (callOptions : Option LogOptions) (s : ProcState) : ProcState × Except JSError Unit :=
  match logCall logger "warn" message data none callOptions with
  | Except.error e => (s, Except.error e)
  | Except.ok r => (pushLog s r, Except.ok ())

/-- Model of `logger.error` (`src/logging.ts` lines 67-70): takes the error
positionally before the data payload. -/
def loggerError (logger : ContextLogger) (message : String) (error : Option JSError)
    (data : JSData) (callOptions : Option LogOptions) (s : ProcState) :
    ProcState × Except JSError Unit :=
  match logCall logger "error" message data error callOptions with
  | Except.error e => (s, Except.error e)
  | Except.ok r => (pushLog s r, Except.ok ())

/-- Model of `logger.debug` (`src/logging.ts` lines 71-74). -/
def loggerDebug (logger : ContextLogger) (message : String) (data : JSData)
    (callOptions : Option LogOptions) (s : ProcState) : ProcState × Except JSError Unit :=
  match logCall logger "debug" message data none callOptions with
  | Except.error e => (s, Except.error e)
  | Except.ok r => (pushLog s r, Except.ok ())

/-! ## Execution timer (`src/performance.ts`) -/

/-- Millisecond duration between two `process.hrtime` pairs, computed as in
the source: `(diff[0] * 1e9 + diff[1]) / 1e6`. -/
def hrtimeDiffMs (start fin : Nat × Nat) : ℚ :=
  ((((fin.1 : Int) - (start.1 : Int)) * 1000000000 + ((fin.2 : Int) - (start.2 : Int)) : Int) : ℚ)
    / 1000000

/-- Association-list lookup with string keys (a JS object keyed by mark or
measurement name; a present value — an `hrtime` pair or a number — is always
truthy, so `!marks[name]` is exactly a missing key). -/
def alookup {α : Type} : List (String × α) → String → Option α
  | [], _ => none
  | (k, v) :: rest, key => if k = key then some v else alookup rest key

/-- Association-list write `m[key] = value`: overwrite in place, else
append. -/
def aset {α : Type} : List (String × α) → String → α → List (String × α)
  | [], key, value => [(key, value)]
  | (k, v) :: rest, key, value =>
    if k = key then (key, value) :: rest else (k, v) :: aset rest key value

/-- The closure state of `createExecutionTimer` (`src/performance.ts`
lines 28-79): the `marks` and `measures` records. -/
structure TimerState where
  marks : List (String × (Nat × Nat))
  measures : List (String × ℚ)
deriving DecidableEq, Repr

/-- The error thrown for a missing start mark (`src/performance.ts`
line 54); the spec names this condition `UnknownMarkError`. -/
def startMarkMissingError (startMark : String) : JSError :=
  newError ("Start mark \"" ++ startMark ++ "\" doesn't exist")

/-- The error thrown for a given-but-missing end mark (`src/performance.ts`
line 61). -/
def endMarkMissingError (endMark : String) : JSError :=
  newError ("End mark \"" ++ endMark ++ "\" doesn't exist")

/-- Model of `timer.mark` (`src/performance.ts` lines 41-43): record "now" under the
name, overwriting any earlier mark. -/
def mark (t : TimerState) (name : String) (now : Nat × Nat) : TimerState :=
  { t with marks := aset t.marks name now }

/-- Model of `timer.measure` (`src/performance.ts` lines 52-69): throws when the
start mark is missing.  The `endMark` argument is tested for JS truthiness
(`endMark ? marks[endMark] : process.hrtime()` on line 58 and
`endMark && !marks[endMark]` on line 60), so an empty-string `endMark` is
falsy exactly like an absent one: the call measures against "now" without
any check — even when a mark named `""` was recorded.  A truthy (nonempty)
`endMark` throws if that mark is unrecorded, and otherwise measures between
the two recorded instants.  The error paths fire before the duration is
computed, so the `measures` record is untouched; success consumes neither
mark. -/
def measure (t : TimerState) (name startMark : String) (endMark : Option String)
    (now : Nat × Nat) : TimerState × Except JSError ℚ :=
  match alookup t.marks startMark with
  | none => (t, Except.error (startMarkMissingError startMark))
  | some startInstant =>
    match endMark with
    | some em =>
      if em = "" then
        let duration := hrtimeDiffMs startInstant now
        ({ t with measures := aset t.measures name duration }, Except.ok duration)
      else
        match alookup t.marks em with
        | none => (t, Except.error (endMarkMissingError em))
        | some endInstant =>
          let duration := hrtimeDiffMs startInstant endInstant
          ({ t with measures := aset t.measures name duration }, Except.ok duration)
    | none =>
      let duration := hrtimeDiffMs startInstant now
      ({ t with measures := aset t.measures name duration }, Except.ok duration)

/-- Model of `timer.getMeasures` (`src/performance.ts` lines 75-77): a snapshot of
the measurements. -/
def getMeasures (t : TimerState) : List (String × ℚ) := t.measures

/-- Model of `measureExecutionTime` (`src/performance.ts` lines 9-22): time an
asynchronous call; a failure of the call propagates before any duration is
computed. -/
def measureExecutionTime {R : Type} (fn : ProcState → ProcState × Except JSError R)
    (s : ProcState) : ProcState × Except JSError (R × ℚ) :=
  let startTime := s.now
  let (s', r) := fn s
  match r with
  | Except.error e => (s', Except.error e)
  | Except.ok v => (s', Except.ok (v, hrtimeDiffMs startTime s'.now))

/-! ## Middleware (`src/middleware.ts`) -/

/-- A Lambda handler `(event, context) => Promise<Result>`, with the
process-wide effects and the possible rejection made explicit. -/
def Handler (E R : Type) : Type :=
  E → Context → ProcState → ProcState × Except JSError R

/-- A middleware: a handler transformer. -/
def Middleware (E R : Type) : Type := Handler E R → Handler E R

/-- The normalized failure response returned by the error-handling layers. -/
structure Response where
  statusCode : Nat
  body : String
deriving DecidableEq, Repr

/-- Model of `JSON.stringify({message: "Internal server error", requestId})`. -/
def errorResponseBody (requestId : String) : String :=
  "\x7b\"message\":\"Internal server error\",\"requestId\":\"" ++ requestId ++ "\"\x7d"

/-- Model of `withLogging` (`src/middleware.ts` lines 111-144): build a context
logger, read the full lambda info, log "Lambda invocation started" (with the
cold-start flag, and the raw event only in development mode), time the
delegate, log completion with duration and memory use, and on failure log
"Lambda invocation failed" and re-throw. -/
def withLogging {R : Type} (handler : Handler JSData R) : Handler JSData R :=
  fun event context s =>
    let (logger, s1) := createContextLogger context {} s
    let (lambdaInfo, s2) := getLambdaInfo context s1
    let startedData := JSData.obj (JSFields.cons "isColdStart" (JSData.boolv lambdaInfo.coldStart)
      (JSFields.cons "event" (if s2.nodeEnv = some "development" then event else JSData.undef)
        JSFields.nil))
    match loggerInfo logger "Lambda invocation started" startedData none s2 with
    | (s3, Except.error e) => (s3, Except.error e)
    | (s3, Except.ok _) =>
      let (s4, r) := measureExecutionTime (fun st => handler event context st) s3
      match r with
      | Except.error err =>
        match loggerError logger "Lambda invocation failed" (some err) JSData.undef none s4 with
        | (s5, Except.error e2) => (s5, Except.error e2)
        | (s5, Except.ok _) => (s5, Except.error err)
      | Except.ok (v, executionTime) =>
        let completedData := JSData.obj (JSFields.cons "executionTime" (JSData.num executionTime)
          (JSFields.cons "memoryUsage" (JSData.str (ratToStr lambdaInfo.memoryUsageInMB ++ "MB"))
            JSFields.nil))
        match loggerInfo logger "Lambda invocation completed" completedData none s4 with
        | (s5, Except.error e2) => (s5, Except.error e2)
        | (s5, Except.ok _) => (s5, Except.ok v)

/-- Model of `withErrorHandling` (`src/middleware.ts` lines 151-177): delegate; on a
thrown error, log it and return the normalized 500 response instead of
re-throwing. -/
def withErrorHandling {E R : Type} (handler : Handler E R) : Handler E (Sum R Response) :=
  fun event context s =>
    let (s1, r) := handler event context s
    match r with
    | Except.ok v => (s1, Except.ok (Sum.inl v))
    | Except.error err =>
      let (logger, s2) := createContextLogger context {} s1
      match loggerError logger "Unhandled error in Lambda" (some err) JSData.undef none s2 with
      | (s3, Except.error e2) => (s3, Except.error e2)
      | (s3, Except.ok _) =>
        (s3, Except.ok (Sum.inr { statusCode := 500, body := errorResponseBody context.awsRequestId }))

/-- Model of `compose` (`src/middleware.ts` lines 184-193): `reduceRight` of the
middleware list onto the handler, so the first-listed middleware ends up
outermost. -/
def compose {E R : Type} (middlewares : List (Middleware E R)) (handler : Handler E R) :
    Handler E R :=
  middlewares.foldr (fun middleware acc => middleware acc) handler

/-! ## Method decorators (`src/decorators.ts`) -/

/-- A decorated method body `(...args: [unknown, Context]) => Promise<unknown>`:
the context position may hold no valid context. -/
def Method (E R : Type) : Type :=
  E → Option Context → ProcState → ProcState × Except JSError R

/-- The context check shared by the decorators
(`!context || typeof context.functionName !== "string"` negated). -/
def validContext : Option Context → Bool
  | none => false
  | some c => c.functionName.isSome

/-- Truthiness of `logOptions?.verbose`. -/
def optVerboseTruthy (logOptions : Option LogOptions) : Bool :=
  match logOptions with
  | none => false
  | some o => o.verbose.getD false

/-- A `MinimalLambdaInfo` as the JS object passed to `logger.info` by
`logLambdaInfo`. -/
def minimalInfoToJSData (i : MinimalLambdaInfo) : JSData :=
  JSData.obj (JSFields.cons "functionName"
      (match i.functionName with | some s => JSData.str s | none => JSData.undef)
    (JSFields.cons "functionVersion" (JSData.str i.functionVersion)
    (JSFields.cons "awsRequestId" (JSData.str i.awsRequestId)
    (JSFields.cons "alias"
      (match i.aliasName with | some s => JSData.str s | none => JSData.undef)
    (JSFields.cons "coldStart" (JSData.boolv i.coldStart) JSFields.nil)))))

/-- A full `LambdaInfo` as the JS object passed to `logger.info` by
`logLambdaInfo` in verbose mode. -/
def lambdaInfoToJSData (i : LambdaInfo) : JSData :=
  JSData.obj (JSFields.cons "functionName"
      (match i.functionName with | some s => JSData.str s | none => JSData.undef)
    (JSFields.cons "functionVersion" (JSData.str i.functionVersion)
    (JSFields.cons "memoryLimitInMB"
      (match i.memoryLimitInMB with | some n => JSData.num n | none => JSData.undef)
    (JSFields.cons "memoryUsageInMB" (JSData.num i.memoryUsageInMB)
    (JSFields.cons "executionEnvironment"
      (match i.executionEnvironment with | some s => JSData.str s | none => JSData.undef)
    (JSFields.cons "logGroupName" (JSData.str i.logGroupName)
    (JSFields.cons "logStreamName" (JSData.str i.logStreamName)
    (JSFields.cons "awsRequestId" (JSData.str i.awsRequestId)
    (JSFields.cons "coldStart" (JSData.boolv i.coldStart)
    (JSFields.cons "remainingTime" (JSData.num i.remainingTime)
    (JSFields.cons "region" (JSData.str i.region)
    (JSFields.cons "alias"
      (match i.aliasName with | some s => JSData.str s | none => JSData.undef)
      JSFields.nil))))))))))))

/-- Model of `logLambdaInfo` (`src/decorators.ts` lines 12-52): with no valid
context, call the original method directly; otherwise build a logger, read
the (minimal or full) lambda info, log it as data with a call-time
`includeLambdaInfo: false`, then delegate. -/
def logLambdaInfo {E R : Type} (logOptions : Option LogOptions)
    (originalMethod : Method E R) : Method E R :=
  fun event ctxArg s =>
    match ctxArg with
    | none => originalMethod event ctxArg s
    | some context =>
      if context.functionName.isNone then originalMethod event ctxArg s
      else
        let (logger, s1) := createContextLogger context (logOptions.getD {}) s
        let (infoData, s2) :=
          if optVerboseTruthy logOptions then
            let (fi, s') := getLambdaInfo context s1
            (lambdaInfoToJSData fi, s')
          else
            let (mi, s') := getMinimalLambdaInfo context s1
            (minimalInfoToJSData mi, s')
        match loggerInfo logger "Lambda execution details" infoData
            (some { includeLambdaInfo := some false }) s2 with
        | (s3, Except.error e) => (s3, Except.error e)
        | (s3, Except.ok _) => originalMethod event ctxArg s3

/-- Model of `measurePerformance` (`src/decorators.ts` lines 58-102): with no valid
context, call the original method directly; otherwise time the delegate and
log the duration tagged with the method name.  A delegate failure
propagates (no catch). -/
def measurePerformance {E R : Type} (logOptions : Option LogOptions) (propertyKey : String)
    (originalMethod : Method E R) : Method E R :=
  fun event ctxArg s =>
    match ctxArg with
    | none => originalMethod event ctxArg s
    | some context =>
      if context.functionName.isNone then originalMethod event ctxArg s
      else
        let (logger, s1) := createContextLogger context (logOptions.getD {}) s
        let (s2, r) := measureExecutionTime (fun st => originalMethod event ctxArg st) s1
        match r with
        | Except.error e => (s2, Except.error e)
        | Except.ok (v, executionTime) =>
          match loggerInfo logger ("Method " ++ propertyKey ++ " execution completed")
              (JSData.obj (JSFields.cons "executionTime" (JSData.num executionTime) JSFields.nil))
              (some { includeData := some true }) s2 with
          | (s3, Except.error e) => (s3, Except.error e)
          | (s3, Except.ok _) => (s3, Except.ok v)

/-- Model of `handleErrors` (`src/decorators.ts` lines 108-159): always wraps the
delegate in try/catch; on a thrown error it logs (only when a valid context
is present) and returns the normalized 500 response with
`context?.awsRequestId || "unknown"` — even when no valid context is
present. -/
def handleErrors {E R : Type} (logOptions : Option LogOptions) (propertyKey : String)
    (originalMethod : Method E R) : Method E (Sum R Response) :=
  fun event ctxArg s =>
    let (s1, r) := originalMethod event ctxArg s
    match r with
    | Except.ok v => (s1, Except.ok (Sum.inl v))
    | Except.error err =>
      let requestId :=
        match ctxArg with
        | some context => if context.awsRequestId = "" then "unknown" else context.awsRequestId
        | none => "unknown"
      let response : Response := { statusCode := 500, body := errorResponseBody requestId }
      match ctxArg with
      | some context =>
        if context.functionName.isSome then
          let base := logOptions.getD {}
          let errorLogOptions :=
            { base with includeLambdaInfo := some (base.includeLambdaInfo ≠ some false) }
          let (logger, sa) := createContextLogger context errorLogOptions s1
          match loggerError logger ("Error in method " ++ propertyKey) (some err) JSData.undef
              (some { verbose := some true }) sa with
          | (sb, Except.error e2) => (sb, Except.error e2)
          | (sb, Except.ok _) => (sb, Except.ok (Sum.inr response))
        else (s1, Except.ok (Sum.inr response))
      | none => (s1, Except.ok (Sum.inr response))

/-! ## Cold-start reads (for the process-lifetime property) -/

/-- One read of the invocation metadata: either projection of
`src/info.ts`. -/
inductive InfoCall where
  | full : Context → InfoCall
  | minimal : Context → InfoCall
deriving DecidableEq

/-- Run one metadata read, observing its reported cold-start flag. -/
def runInfoCall (call : InfoCall) (s : ProcState) : Bool × ProcState :=
  match call with
  | InfoCall.full c =>
    let (i, s') := getLambdaInfo c s
    (i.coldStart, s')
  | InfoCall.minimal c =>
    let (i, s') := getMinimalLambdaInfo c s
    (i.coldStart, s')

/-- Run a sequence of metadata reads, collecting the reported cold-start
flags in order. -/
def runInfoCalls : List InfoCall → ProcState → List Bool × ProcState
  | [], s => ([], s)
  | call :: rest, s =>
    let (b, s') := runInfoCall call s
    let (bs, s'') := runInfoCalls rest s'
    (b :: bs, s'')

/-- The expected cold-start observation sequence: `true` once, then
`false`. -/
def trueThenFalses : Nat → List Bool
  | 0 => []
  | n + 1 => true :: List.replicate n false

/-! ## Sample concrete values used by witnesses and counterexamples -/

/-- A concrete invocation context (version-qualified ARN, so no alias). -/
def sampleContext : Context :=
  { functionName := some "myFn"
    functionVersion := "1"
    memoryLimitInMB := "128"
    awsRequestId := "req-1"
    logGroupName := "lg"
    logStreamName := "ls"
    invokedFunctionArn := "arn:aws:lambda:us-east-1:123:function:myFn:7"
    remainingTimeMs := 1000 }

/-- A concrete context whose `awsRequestId` is the empty string. -/
def emptyRequestIdContext : Context :=
  { sampleContext with awsRequestId := "" }

/-- A fresh process state: first invocation still pending, production
environment. -/
def freshState : ProcState :=
  { isFirstInvocation := true
    logStreamEnv := none
    nodeEnv := none
    awsExecutionEnv := none
    awsRegion := none
    rssBytes := 0
    now := (0, 0)
    output := [] }

/-- A fresh process state in development mode (`NODE_ENV=development`). -/
def freshDevState : ProcState :=
  { freshState with nodeEnv := some "development" }

/-- A handler/method that always throws `Error("boom")`. -/
def boomError : JSError := newError "boom"

/-- A handler that always rejects with `Error("boom")`. -/
def throwingHandler {E R : Type} : Handler E R :=
  fun _ _ s => (s, Except.error boomError)

/-- A method body that always rejects with `Error("boom")`. -/
def throwingMethod {E R : Type} : Method E R :=
  fun _ _ s => (s, Except.error boomError)

/-- A method body that always resolves with its event. -/
def echoMethod {E : Type} : Method E E :=
  fun event _ s => (s, Except.ok event)

/-- A trivially succeeding handler. -/
def trivialOkHandler : Handler JSData Unit :=
  fun _ _ s => (s, Except.ok ())

/-- A small renderable payload, `{x: 1}`. -/
def xObjData : JSData :=
  JSData.obj (JSFields.cons "x" (JSData.num 1) JSFields.nil)

/-- The logger built on `sampleContext` with no construction options (all
built-in defaults). -/
def defaultLogger : ContextLogger :=
  (createContextLogger sampleContext {} freshState).1

/-- The parts of the line a log call produced (empty when the call threw). -/
def logCallParts (r : Except JSError LogRecord) : List String :=
  match r with
  | Except.ok rec => rec.parts
  | Except.error _ => []

/-- Model of `context?.awsRequestId || "unknown"` as evaluated by `handleErrors`. -/
def jsRequestId : Option Context → String
  | some c => if c.awsRequestId = "" then "unknown" else c.awsRequestId
  | none => "unknown"

/-- A mixed sequence of three metadata reads on one context. -/
def sampleCalls : List InfoCall :=
  [InfoCall.minimal sampleContext, InfoCall.full sampleContext, InfoCall.minimal sampleContext]

/-- A timer with two marks recorded and no measurements yet. -/
def sampleTimer : TimerState :=
  { marks := [("start", (0, 0)), ("done", (1, 0))], measures := [] }

/-- A timer that recorded a mark under the empty-string name. -/
def emptyMarkTimer : TimerState :=
  { marks := [("start", (0, 0)), ("", (1, 0))], measures := [] }

/-! ## Supporting lemmas -/

theorem logCall_ok_fields (logger : ContextLogger) (sink message : String) (data : JSData)
    (error : Option JSError) (callOptions : Option LogOptions) (r : LogRecord)
    (h : logCall logger sink message data error callOptions = Except.ok r) :
    r.sink = sink ∧ r.message = message ∧ r.error = error := by
  unfold logCall at h
  dsimp only at h
  split at h
  · exact Except.noConfusion h
  · cases h
    exact ⟨rfl, rfl, rfl⟩

theorem formatLog_undef_ok (logger : ContextLogger) (level message : String)
    (error : Option JSError) :
    ∃ parts, formatLog logger level message JSData.undef error = Except.ok parts := by
  unfold formatLog
  cases error <;> simp [jsTruthy]

theorem formatLog_renderable_ok (logger : ContextLogger) (level message : String)
    (data : JSData) (error : Option JSError) (h : jsonRenderable data = true) :
    ∃ parts, formatLog logger level message data error = Except.ok parts := by
  unfold jsonRenderable at h
  rcases hj : jsonStringify data with _ | j
  · rw [hj] at h
    simp at h
  · unfold formatLog
    rcases hc : jsTruthy data && logger.options.includeData with _ | _
    · simp only [hc, if_false, Bool.false_eq_true]
      exact ⟨_, rfl⟩
    · simp only [hc, if_true, hj]
      exact ⟨_, rfl⟩

theorem logCall_renderable_ok (logger : ContextLogger) (sink message : String) (data : JSData)
    (error : Option JSError) (callOptions : Option LogOptions) (h : jsonRenderable data = true) :
    ∃ r, logCall logger sink message data error callOptions = Except.ok r := by
  unfold logCall
  dsimp only
  rcases hd : (mergeCallOptions logger.options callOptions).includeData with _ | _
  · obtain ⟨parts, hp⟩ := formatLog_undef_ok logger sink message error
    simp only [hd, if_false, Bool.false_eq_true, hp]
    exact ⟨_, rfl⟩
  · obtain ⟨parts, hp⟩ := formatLog_renderable_ok logger sink message data error h
    simp only [hd, if_true, hp]
    exact ⟨_, rfl⟩

theorem logCall_undef_ok (logger : ContextLogger) (sink message : String)
    (error : Option JSError) (callOptions : Option LogOptions) :
    ∃ r, logCall logger sink message JSData.undef error callOptions = Except.ok r := by
  obtain ⟨parts, hp⟩ := formatLog_undef_ok logger sink message error
  unfold logCall
  simp only [ite_self, hp]
  exact ⟨_, rfl⟩

theorem loggerError_undef_ok (logger : ContextLogger) (message : String)
    (error : Option JSError) (callOptions : Option LogOptions) (s : ProcState) :
    ∃ r, loggerError logger message error JSData.undef callOptions s = (pushLog s r, Except.ok ()) ∧
      r.message = message ∧ r.error = error := by
  obtain ⟨r, hr⟩ := logCall_undef_ok logger "error" message error callOptions
  obtain ⟨_, hm, he⟩ := logCall_ok_fields logger "error" message JSData.undef error callOptions r hr
  exact ⟨r, by simp [loggerError, hr], hm, he⟩

theorem loggerError_undef_not_error (logger : ContextLogger) (message : String)
    (error : Option JSError) (callOptions : Option LogOptions) (s sb : ProcState) (e2 : JSError)
    (h : loggerError logger message error JSData.undef callOptions s = (sb, Except.error e2)) :
    False := by
  obtain ⟨rec, hle, _, _⟩ := loggerError_undef_ok logger message error callOptions s
  rw [hle] at h
  exact Except.noConfusion (congrArg Prod.snd h)

theorem getLambdaInfo_state (c : Context) (s : ProcState) :
    (getLambdaInfo c s).2 = { s with isFirstInvocation := false } := rfl

theorem getMinimalLambdaInfo_state (c : Context) (s : ProcState) :
    (getMinimalLambdaInfo c s).2 = { s with isFirstInvocation := false } := rfl

theorem createContextLogger_state (c : Context) (o : LogOptions) (s : ProcState) :
    ∃ n, (createContextLogger c o s).2 =
      { s with isFirstInvocation := false, logStreamEnv := some n } := by
  unfold createContextLogger
  rcases hv : (resolveConstructionOptions o).verbose with _ | _
  · simp only [hv, if_false, Bool.false_eq_true, getMinimalLambdaInfo]
    exact ⟨_, rfl⟩
  · simp only [hv, if_true, getLambdaInfo]
    exact ⟨_, rfl⟩

theorem runInfoCall_spec (call : InfoCall) (s : ProcState) :
    (runInfoCall call s).1 = s.isFirstInvocation ∧
    (runInfoCall call s).2 = { s with isFirstInvocation := false } := by
  cases call <;> exact ⟨rfl, rfl⟩

theorem alookup_aset_self {α : Type} (l : List (String × α)) (k : String) (v : α) :
    alookup (aset l k v) k = some v := by
  induction l with
  | nil => simp [aset, alookup]
  | cons p rest ih =>
    rcases p with ⟨pk, pv⟩
    by_cases h : pk = k
    · subst h
      simp [aset, alookup]
    · simp [aset, alookup, h, ih]

theorem startedData_renderable (b : Bool) (ev : JSData)
    (h : jsonRenderable ev = true ∨ ev = JSData.undef) :
    jsonRenderable (JSData.obj (JSFields.cons "isColdStart" (JSData.boolv b)
      (JSFields.cons "event" ev JSFields.nil))) = true := by
  rcases h with h | h
  · unfold jsonRenderable at h
    rcases hj : jsonStringify ev with _ | j
    · rw [hj] at h
      simp at h
    · cases ev <;>
        simp_all [jsonRenderable, jsonStringify, jsonStringifyFields]
  · subst h
    simp [jsonRenderable, jsonStringify, jsonStringifyFields]

/-! ## Claim theorems -/

/-- C1: for every pair of middlewares `A`, `B` and every handler `h`, the
wrapped handler `compose(A, B)(h)` is the very function `A(B(h))`, and in
particular, invoked on any event and context (and process state), it yields
the same behaviour — same call order of the behaviours (`A` outermost) and
same final result or thrown error. -/
theorem compose_pair_eq {E R : Type} (A B : Middleware E R) (handler : Handler E R)
    (event : E) (context : Context) (s : ProcState) :
    compose [A, B] handler = A (B handler) ∧
    compose [A, B] handler event context s = A (B handler) event context s :=
  ⟨rfl, rfl⟩

/-- C10: `compose` applied to an empty middleware list is the identity:
`compose()(h)` is the very function `h`, so on every event, context and
process state it produces exactly `h`'s result or thrown error. -/
theorem compose_nil_id {E R : Type} (handler : Handler E R) (event : E) (context : Context)
    (s : ProcState) :
    compose [] handler = handler ∧
    compose [] handler event context s = handler event context s :=
  ⟨rfl, rfl⟩

/-- C4 (code bug evidence): on the first invocation of a fresh process
(`isFirstInvocation = true`), the "Lambda invocation started" record of a
`withLogging`-wrapped handler reports `isColdStart: false`, because
`createContextLogger` already consumed the cold-start flag before
`getLambdaInfo` read it — while the metadata segment captured by the logger
itself still says `ColdStart: true`, an inconsistent view within one log
line. -/
theorem withLogging_first_invocation_logs_false_coldStart :
    freshState.isFirstInvocation = true ∧
    ((withLogging trivialOkHandler JSData.undef sampleContext freshState).1.output.map
      (fun r => (r.message, dataLookup r.data "isColdStart"))).head? =
      some ("Lambda invocation started", some (JSData.boolv false)) ∧
    ((withLogging trivialOkHandler JSData.undef sampleContext freshState).1.output.map
      (fun r => r.parts.contains (metaSegment
        { functionName := some "myFn", functionVersion := "1", awsRequestId := "req-1",
          aliasName := none, coldStart := true }))).head? = some true := by
  refine ⟨rfl, by decide, by decide⟩

/-- C6 (code bug evidence): with a logger whose construction options enable
`includeLambdaInfo` (the built-in default), a call-time
`includeLambdaInfo: false` does not suppress the metadata segment: the
rendered line still contains the `Function: ...` segment, because
`formatLog` consults the construction-time options instead of the merged
per-call options. -/
theorem formatLog_ignores_call_time_includeLambdaInfo :
    defaultLogger.options.includeLambdaInfo = true ∧
    metaSegment defaultLogger.info ∈ logCallParts
      (logCall defaultLogger "info" "msg" xObjData none
        (some { includeLambdaInfo := some false })) := by
  exact ⟨rfl, by decide⟩

/-- C2 (counterexample): for a context whose `awsRequestId` is the empty
string, the `handleErrors`-decorated method on a thrown error returns the
500 response whose `requestId` is the placeholder `"unknown"`, not
`c.awsRequestId` as the claim states. -/
theorem handleErrors_empty_requestId_counterexample :
    (handleErrors (E := Unit) (R := Unit) none "handle" throwingMethod ()
        (some emptyRequestIdContext) freshState).2 =
      Except.ok (Sum.inr { statusCode := 500, body := errorResponseBody "unknown" }) ∧
    errorResponseBody "unknown" ≠ errorResponseBody emptyRequestIdContext.awsRequestId := by
  exact ⟨by decide, by decide⟩

/-- C3 (counterexample): emitting a circular payload through a logger built
with the default options throws the `JSON.stringify` `TypeError` — no
placeholder is substituted, the failure propagates to the caller. -/
theorem logger_emission_throws_on_circular :
    (loggerInfo defaultLogger "msg" JSData.circular none freshState).2 =
      Except.error circularJsonError := by
  decide

/-- C5 (counterexample): in development mode with a circular event, the
`withLogging` wrapper around a handler that always throws `Error("boom")`
rejects with the serialization `TypeError` raised by the "invocation
started" log — not with the handler's own error, which is never even
invoked. -/
theorem withLogging_dev_circular_counterexample :
    (withLogging (throwingHandler (R := Unit)) JSData.circular sampleContext freshDevState).2 =
      Except.error circularJsonError ∧
    circularJsonError ≠ boomError := by
  exact ⟨by decide, by decide⟩

/-- C8 (counterexample): with no context argument, the
`handleErrors`-decorated method is not a pass-through: where the original
method throws `Error("boom")`, the decorated one swallows it and returns
the normalized 500 response with `requestId: "unknown"`. -/
theorem handleErrors_invalid_context_counterexample :
    (throwingMethod (E := Unit) (R := Unit) () none freshState).2 = Except.error boomError ∧
    (handleErrors (E := Unit) (R := Unit) none "handle" throwingMethod () none freshState).2 =
      Except.ok (Sum.inr { statusCode := 500, body := errorResponseBody "unknown" }) ∧
    (handleErrors (E := Unit) (R := Unit) none "handle" throwingMethod () none freshState).2 ≠
      Except.error boomError := by
  exact ⟨rfl, by decide, by decide⟩

/-- C3 (amended): logger construction is a total function of the context,
options and process state (it never throws), and log emission on any of the
four channels returns normally whenever the data payload is
JSON-renderable; a payload that fails to render makes the emission call
throw the serialization error — no placeholder is substituted (see the
counterexample). -/
theorem logger_emission_ok_of_renderable (logger : ContextLogger) (message : String)
    (data : JSData) (error : Option JSError) (callOptions : Option LogOptions) (s : ProcState)
    (h : jsonRenderable data = true) :
    (loggerInfo logger message data callOptions s).2 = Except.ok () ∧
    (loggerWarn logger message data callOptions s).2 = Except.ok () ∧
    (loggerError logger message error data callOptions s).2 = Except.ok () ∧
    (loggerDebug logger message data callOptions s).2 = Except.ok () := by
  obtain ⟨r1, h1⟩ := logCall_renderable_ok logger "info" message data none callOptions h
  obtain ⟨r2, h2⟩ := logCall_renderable_ok logger "warn" message data none callOptions h
  obtain ⟨r3, h3⟩ := logCall_renderable_ok logger "error" message data error callOptions h
  obtain ⟨r4, h4⟩ := logCall_renderable_ok logger "debug" message data none callOptions h
  exact ⟨by simp [loggerInfo, h1], by simp [loggerWarn, h2],
    by simp [loggerError, h3], by simp [loggerDebug, h4]⟩

theorem logger_emission_ok_witness :
    jsonRenderable xObjData = true ∧
    (loggerInfo defaultLogger "msg" xObjData none freshState).2 = Except.ok () :=
  ⟨by decide,
    (logger_emission_ok_of_renderable defaultLogger "msg" xObjData none none freshState
      (by decide)).1⟩

/-- C7: the process-wide cold-start flag starts `true`; under any sequence
of metadata reads (`getLambdaInfo` or `getMinimalLambdaInfo`, in any mix),
the first read reports `true` and clears the flag, every later read reports
`false`, and after any nonempty sequence the flag is `false`. -/
theorem coldStart_flag_spec (calls : List InfoCall) (s : ProcState)
    (h : s.isFirstInvocation = true) :
    (runInfoCalls calls s).1 = trueThenFalses calls.length ∧
    (calls = [] ∨ (runInfoCalls calls s).2.isFirstInvocation = false) := by
  have after : ∀ (cs : List InfoCall) (st : ProcState), st.isFirstInvocation = false →
      (runInfoCalls cs st).1 = List.replicate cs.length false ∧
      (runInfoCalls cs st).2.isFirstInvocation = false := by
    intro cs
    induction cs with
    | nil => intro st hst; exact ⟨rfl, hst⟩
    | cons call rest ih =>
      intro st hst
      obtain ⟨h1, h2⟩ := runInfoCall_spec call st
      rcases hg : runInfoCall call st with ⟨b, st'⟩
      rw [hg] at h1 h2
      dsimp only at h1 h2
      have hst' : st'.isFirstInvocation = false := by rw [h2]
      obtain ⟨ih1, ih2⟩ := ih st' hst'
      constructor
      · simp [runInfoCalls, hg, h1, hst, ih1, List.replicate_succ]
      · simp [runInfoCalls, hg, ih2]
  cases calls with
  | nil => exact ⟨rfl, Or.inl rfl⟩
  | cons call rest =>
    obtain ⟨h1, h2⟩ := runInfoCall_spec call s
    rcases hg : runInfoCall call s with ⟨b, s'⟩
    rw [hg] at h1 h2
    dsimp only at h1 h2
    have hs' : s'.isFirstInvocation = false := by rw [h2]
    obtain ⟨r1, r2⟩ := after rest s' hs'
    refine ⟨?_, Or.inr ?_⟩
    · simp [runInfoCalls, hg, trueThenFalses, h1, h, r1]
    · simp [runInfoCalls, hg, r2]

theorem coldStart_flag_spec_witness :
    freshState.isFirstInvocation = true ∧
    (runInfoCalls sampleCalls freshState).1 = trueThenFalses 3 ∧
    (sampleCalls = [] ∨ (runInfoCalls sampleCalls freshState).2.isFirstInvocation = false) :=
  ⟨rfl, (coldStart_flag_spec sampleCalls freshState rfl).1,
    (coldStart_flag_spec sampleCalls freshState rfl).2⟩

/-- C9 (counterexample): calling `measure` with the empty string as the end
mark refutes the claim twice over.  With no mark recorded under `""` (in
`sampleTimer`), the end mark is given but was never recorded, yet the call
does not fail — it returns the duration measured against "now".  And with a
mark recorded under `""` (in `emptyMarkTimer`), both marks exist, yet the
returned duration is measured against "now", not the recorded instant: the
empty string is JS-falsy in both checks of `src/performance.ts` lines
58 and 60. -/
theorem measure_empty_endMark_counterexample :
    alookup sampleTimer.marks "" = none ∧
    (measure sampleTimer "m" "start" (some "") (2, 0)).2 =
      Except.ok (hrtimeDiffMs (0, 0) (2, 0)) ∧
    alookup emptyMarkTimer.marks "" = some (1, 0) ∧
    (measure emptyMarkTimer "m" "start" (some "") (2, 0)).2 =
      Except.ok (hrtimeDiffMs (0, 0) (2, 0)) ∧
    hrtimeDiffMs (0, 0) (2, 0) ≠ hrtimeDiffMs (0, 0) (1, 0) := by
  exact ⟨by decide, rfl, by decide, rfl, by norm_num [hrtimeDiffMs]⟩

/-- C9 (amended): `measure` fails with the unknown-mark error whenever the
start mark was never recorded, or the end mark was given as a nonempty
string but never recorded — in those cases it returns no duration and
leaves the whole timer state (in particular the stored measurements)
unchanged.  When a nonempty end mark names a recorded mark, `measure`
stores the duration between the two recorded instants under the
measurement name and returns it, consuming neither mark.  An end mark that
is absent or the empty string is falsy: the call measures against "now"
without any check, even when a mark named `""` was recorded (see the
counterexample). -/
theorem measure_spec (t : TimerState) (name startMark : String) (endMark : Option String)
    (now : Nat × Nat) :
    (alookup t.marks startMark = none →
      measure t name startMark endMark now =
        (t, Except.error (startMarkMissingError startMark))) ∧
    (∀ em startInstant, endMark = some em → em ≠ "" →
      alookup t.marks startMark = some startInstant → alookup t.marks em = none →
      measure t name startMark endMark now =
        (t, Except.error (endMarkMissingError em))) ∧
    (∀ em startInstant endInstant, endMark = some em → em ≠ "" →
      alookup t.marks startMark = some startInstant → alookup t.marks em = some endInstant →
      measure t name startMark endMark now =
        ({ marks := t.marks,
           measures := aset t.measures name (hrtimeDiffMs startInstant endInstant) },
          Except.ok (hrtimeDiffMs startInstant endInstant)) ∧
      alookup (measure t name startMark endMark now).1.measures name =
        some (hrtimeDiffMs startInstant endInstant)) ∧
    (∀ startInstant, (endMark = none ∨ endMark = some "") →
      alookup t.marks startMark = some startInstant →
      measure t name startMark endMark now =
        ({ marks := t.marks,
           measures := aset t.measures name (hrtimeDiffMs startInstant now) },
          Except.ok (hrtimeDiffMs startInstant now))) := by
  refine ⟨?_, ?_, ?_, ?_⟩
  · intro h
    unfold measure
    rw [h]
  · intro em startInstant he hem hs hm
    subst he
    unfold measure
    rw [hs]
    dsimp only
    rw [if_neg hem, hm]
  · intro em startInstant endInstant he hem hs hm
    subst he
    have heq : measure t name startMark (some em) now =
        ({ marks := t.marks,
           measures := aset t.measures name (hrtimeDiffMs startInstant endInstant) },
          Except.ok (hrtimeDiffMs startInstant endInstant)) := by
      unfold measure
      rw [hs]
      dsimp only
      rw [if_neg hem, hm]
    refine ⟨heq, ?_⟩
    rw [heq]
    exact alookup_aset_self t.measures name (hrtimeDiffMs startInstant endInstant)
  · intro startInstant he hs
    rcases he with he | he
    · subst he
      unfold measure
      rw [hs]
    · subst he
      unfold measure
      rw [hs]
      dsimp only
      rw [if_pos rfl]

theorem measure_spec_witness :
    alookup sampleTimer.marks "missing" = none ∧
    measure sampleTimer "m" "missing" none (2, 0) =
      (sampleTimer, Except.error (startMarkMissingError "missing")) ∧
    measure sampleTimer "m" "start" (some "done") (2, 0) =
      ({ marks := sampleTimer.marks,
         measures := aset sampleTimer.measures "m" (hrtimeDiffMs (0, 0) (1, 0)) },
        Except.ok (hrtimeDiffMs (0, 0) (1, 0))) ∧
    measure emptyMarkTimer "m" "start" (some "") (2, 0) =
      ({ marks := emptyMarkTimer.marks,
         measures := aset emptyMarkTimer.measures "m" (hrtimeDiffMs (0, 0) (2, 0)) },
        Except.ok (hrtimeDiffMs (0, 0) (2, 0))) :=
  ⟨by decide,
    (measure_spec sampleTimer "m" "missing" none (2, 0)).1 (by decide),
    ((measure_spec sampleTimer "m" "start" (some "done") (2, 0)).2.2.1 "done" (0, 0) (1, 0) rfl
      (by decide) (by decide) (by decide)).1,
    (measure_spec emptyMarkTimer "m" "start" (some "") (2, 0)).2.2.2 (0, 0) (Or.inr rfl)
      (by decide)⟩

/-- C2 (amended): for every handler that throws, the
`withErrorHandling`-wrapped handler never re-throws and returns the
normalized `{statusCode: 500, body: JSON{message, requestId:
c.awsRequestId}}` value; the `handleErrors` decorator likewise never
re-throws and returns the same 500 response, except that its `requestId` is
`context?.awsRequestId || "unknown"` — the placeholder `"unknown"` when the
context is absent or its `awsRequestId` is the empty string (see the
counterexample). -/
theorem errorHandling_returns_500_never_rethrows {E F R S : Type}
    (handler : Handler E R) (original : Method F S) (logOptions : Option LogOptions)
    (propertyKey : String) (event : E) (eventM : F) (context : Context)
    (ctxArg : Option Context) (s sM : ProcState) (err errM : JSError)
    (hthrow : (handler event context s).2 = Except.error err)
    (hthrowM : (original eventM ctxArg sM).2 = Except.error errM) :
    (withErrorHandling handler event context s).2 =
      Except.ok (Sum.inr { statusCode := 500, body := errorResponseBody context.awsRequestId }) ∧
    (handleErrors logOptions propertyKey original eventM ctxArg sM).2 =
      Except.ok (Sum.inr { statusCode := 500, body := errorResponseBody (jsRequestId ctxArg) }) := by
  constructor
  · unfold withErrorHandling
    rcases hres : handler event context s with ⟨s1, r⟩
    rw [hres] at hthrow
    dsimp only at hthrow
    subst hthrow
    dsimp only
    split
    · next heq => exact (loggerError_undef_not_error _ _ _ _ _ _ _ heq).elim
    · rfl
  · unfold handleErrors
    rcases hres : original eventM ctxArg sM with ⟨s1, r⟩
    rw [hres] at hthrowM
    dsimp only at hthrowM
    subst hthrowM
    dsimp only
    rcases ctxArg with _ | context2
    · rfl
    · rcases hfn : context2.functionName with _ | fn
      · simp only [hfn, Option.isSome_none, Bool.false_eq_true, if_false]
        rfl
      · simp only [hfn, Option.isSome_some, if_true]
        split
        · next heq => exact (loggerError_undef_not_error _ _ _ _ _ _ _ heq).elim
        · rfl

theorem errorHandling_returns_500_witness :
    (throwingHandler (E := Unit) (R := Unit) () sampleContext freshState).2 =
      Except.error boomError ∧
    (withErrorHandling (throwingHandler (E := Unit) (R := Unit)) () sampleContext freshState).2 =
      Except.ok (Sum.inr { statusCode := 500
                           body := errorResponseBody sampleContext.awsRequestId }) ∧
    (handleErrors (E := Unit) (R := Unit) none "handle" throwingMethod ()
        (some sampleContext) freshState).2 =
      Except.ok (Sum.inr { statusCode := 500
                           body := errorResponseBody (jsRequestId (some sampleContext)) }) :=
  ⟨rfl,
    (errorHandling_returns_500_never_rethrows (throwingHandler (E := Unit) (R := Unit))
      (throwingMethod (E := Unit) (R := Unit)) none "handle" () () sampleContext
      (some sampleContext) freshState freshState boomError boomError rfl rfl).1,
    (errorHandling_returns_500_never_rethrows (throwingHandler (E := Unit) (R := Unit))
      (throwingMethod (E := Unit) (R := Unit)) none "handle" () () sampleContext
      (some sampleContext) freshState freshState boomError boomError rfl rfl).2⟩

/-- C8 (amended): with no valid invocation context in the argument list,
`logLambdaInfo` and `measurePerformance` are exact pass-throughs — the
decorated method is the original call, same result or thrown error, no
instrumentation effect.  `handleErrors` calls the original directly and
passes its successful value through unchanged, but it is not a pass-through
on the error path: a thrown error is still converted into the normalized
500 response (with `requestId` `context?.awsRequestId || "unknown"`), with
no logging (see the counterexample). -/
theorem decorators_invalid_context_behavior {E R : Type} (logOptions : Option LogOptions)
    (propertyKey : String) (original : Method E R) (event : E) (ctxArg : Option Context)
    (s : ProcState) (v : R) (err : JSError) (hinv : validContext ctxArg = false) :
    (logLambdaInfo logOptions original event ctxArg s = original event ctxArg s) ∧
    (measurePerformance logOptions propertyKey original event ctxArg s =
      original event ctxArg s) ∧
    ((original event ctxArg s).2 = Except.ok v →
      handleErrors logOptions propertyKey original event ctxArg s =
        ((original event ctxArg s).1, Except.ok (Sum.inl v))) ∧
    ((original event ctxArg s).2 = Except.error err →
      handleErrors logOptions propertyKey original event ctxArg s =
        ((original event ctxArg s).1,
          Except.ok (Sum.inr { statusCode := 500
                               body := errorResponseBody (jsRequestId ctxArg) }))) := by
  rcases ctxArg with _ | context
  · refine ⟨rfl, rfl, ?_, ?_⟩
    · intro hok
      unfold handleErrors
      rcases hres : original event none s with ⟨s1, r⟩
      rw [hres] at hok
      dsimp only at hok
      subst hok
      rfl
    · intro herr
      unfold handleErrors
      rcases hres : original event none s with ⟨s1, r⟩
      rw [hres] at herr
      dsimp only at herr
      subst herr
      rfl
  · rcases hfn : context.functionName with _ | fn
    · refine ⟨?_, ?_, ?_, ?_⟩
      · unfold logLambdaInfo
        simp [hfn]
      · unfold measurePerformance
        simp [hfn]
      · intro hok
        unfold handleErrors
        rcases hres : original event (some context) s with ⟨s1, r⟩
        rw [hres] at hok
        dsimp only at hok
        subst hok
        rfl
      · intro herr
        unfold handleErrors
        rcases hres : original event (some context) s with ⟨s1, r⟩
        rw [hres] at herr
        dsimp only at herr
        subst herr
        dsimp only
        simp only [hfn, Option.isSome_none, Bool.false_eq_true, if_false]
        rfl
    · exfalso
      rw [show validContext (some context) = context.functionName.isSome from rfl, hfn] at hinv
      exact Bool.noConfusion hinv

theorem decorators_invalid_context_witness :
    validContext (none : Option Context) = false ∧
    logLambdaInfo (E := Unit) (R := Unit) none echoMethod () none freshState =
      echoMethod () none freshState ∧
    handleErrors (E := Unit) (R := Unit) none "handle" echoMethod () none freshState =
      ((echoMethod () none freshState).1, Except.ok (Sum.inl ())) :=
  ⟨rfl,
    (decorators_invalid_context_behavior none "handle" echoMethod () none freshState ()
      boomError rfl).1,
    (decorators_invalid_context_behavior none "handle" echoMethod () none freshState ()
      boomError rfl).2.2.1 rfl⟩

/-- C5 (amended): for every handler that throws and every event, context
and process state, the `withLogging`-wrapped handler re-raises exactly the
error object the inner handler throws, after appending a "Lambda invocation
failed" record carrying that very error — provided the pre-invocation
"started" log can be rendered, which always holds outside development mode
and in development mode requires the raw event to be JSON-renderable (in
the remaining corner the started log itself throws before the handler runs;
see the counterexample). -/
theorem withLogging_rethrows_original_error {R : Type} (handler : Handler JSData R)
    (event : JSData) (context : Context) (s : ProcState) (err : JSError)
    (hthrow : ∀ st, (handler event context st).2 = Except.error err)
    (hdev : s.nodeEnv = some "development" → jsonRenderable event = true) :
    (withLogging handler event context s).2 = Except.error err ∧
    ∃ r, r ∈ (withLogging handler event context s).1.output ∧
      r.message = "Lambda invocation failed" ∧ r.error = some err := by
  obtain ⟨n, hstate⟩ := createContextLogger_state context {} s
  rcases hcl : createContextLogger context {} s with ⟨logger, s1⟩
  rw [hcl] at hstate
  dsimp only at hstate
  have hgi2 := getLambdaInfo_state context s1
  rcases hgi : getLambdaInfo context s1 with ⟨lambdaInfo, s2⟩
  rw [hgi] at hgi2
  dsimp only at hgi2
  have hnode : s2.nodeEnv = s.nodeEnv := by rw [hgi2, hstate]
  have hrend : jsonRenderable (JSData.obj (JSFields.cons "isColdStart"
      (JSData.boolv lambdaInfo.coldStart)
      (JSFields.cons "event" (if s2.nodeEnv = some "development" then event else JSData.undef)
        JSFields.nil))) = true := by
    apply startedData_renderable
    by_cases hd : s2.nodeEnv = some "development"
    · rw [if_pos hd]
      exact Or.inl (hdev (hnode ▸ hd))
    · rw [if_neg hd]
      exact Or.inr rfl
  obtain ⟨r0, hok⟩ := logCall_renderable_ok logger "info" "Lambda invocation started"
    (JSData.obj (JSFields.cons "isColdStart" (JSData.boolv lambdaInfo.coldStart)
      (JSFields.cons "event" (if s2.nodeEnv = some "development" then event else JSData.undef)
        JSFields.nil))) none none hrend
  rcases hh : handler event context (pushLog s2 r0) with ⟨s4, rr⟩
  have hrr : rr = Except.error err := by
    have h2 := hthrow (pushLog s2 r0)
    rw [hh] at h2
    exact h2
  subst hrr
  obtain ⟨r1, hle, hm1, he1⟩ :=
    loggerError_undef_ok logger "Lambda invocation failed" (some err) none s4
  have hmain : withLogging handler event context s = (pushLog s4 r1, Except.error err) := by
    unfold withLogging
    rw [hcl]
    dsimp only
    rw [hgi]
    dsimp only
    unfold loggerInfo
    rw [hok]
    dsimp only
    unfold measureExecutionTime
    dsimp only
    rw [hh]
    dsimp only
    rw [hle]
  rw [hmain]
  refine ⟨rfl, r1, ?_, hm1, he1⟩
  simp [pushLog]

theorem withLogging_rethrows_witness :
    (throwingHandler (E := JSData) (R := Unit) JSData.undef sampleContext freshState).2 =
      Except.error boomError ∧
    (withLogging (throwingHandler (R := Unit)) JSData.undef sampleContext freshState).2 =
      Except.error boomError :=
  ⟨rfl,
    (withLogging_rethrows_original_error (throwingHandler (R := Unit)) JSData.undef
      sampleContext freshState boomError (fun _ => rfl)
      (fun hd => absurd hd (by decide))).1⟩

end Radar
